import Mathlib

/-!
Verification of the RFP proposal-generation pipeline
(`assistant.py` and `proposals_function/__init__.py`).

The development shallowly embeds the pure/algorithmic core of the code:
  * the chunking of extracted file text (`handle_request`, lines 112-115),
  * the prompt-sequence construction (lines 117-122),
  * the per-prompt retry / run / poll / transcript loop (lines 136-199),
  * the post-loop document assembly and upload (lines 201-217),
  * the emphasis-markup renderer `add_formatted_content` (lines 271-288),
  * the per-file content extractor `process_file` family (lines 222-269),
  * the HTTP entry point `main` of `proposals_function/__init__.py`.

External services (the AI assistant, the blob store, the file share) are
modelled as oracles: an environment value records what each remote call
returns or whether it raises, and the embedded orchestrator consumes it
exactly as the Python control flow does.
-/

namespace Proposal

/-! ## Chunking (`handle_request`, lines 112-115)

`chunks.extend([file_content[i:i + chunk_size] for i in
range(0, len(file_content), chunk_size)])` -/

/-- Python slice `s[i : i + k]` on a character list. -/
def pySlice (s : List Char) (i k : Nat) : List Char :=
  (s.drop i).take k

/-- Python `range(0, n, k)` for a positive step `k`:
the start offsets `0, k, 2k, ...` that are `< n`. -/
def sliceStarts (n k : Nat) : List Nat :=
  (List.range ((n + k - 1) / k)).map (fun j => j * k)

/-- The chunk list of one file:
`[file_content[i:i + chunk_size] for i in range(0, len(file_content), chunk_size)]`. -/
def makeChunks (k : Nat) (s : List Char) : List (List Char) :=
  (sliceStarts s.length k).map (fun i => pySlice s i k)

/-- `chunk_size = 100000` (line 112 of `assistant.py`). -/
def chunk_size : Nat := 100000

/-- The flat chunk list across all downloaded file contents, in file order
(the `for file_content in adls_file_contents: chunks.extend(...)` loop). -/
def allChunks (contents : List (List Char)) : List (List Char) :=
  (contents.map (fun c => makeChunks chunk_size c)).flatten

theorem sliceStarts_zero (k : Nat) : sliceStarts 0 k = [] := by
  unfold sliceStarts
  have h : (0 + k - 1) / k = 0 := by
    rcases Nat.eq_zero_or_pos k with hk | hk
    · simp [hk]
    · exact Nat.div_eq_of_lt (by omega)
  rw [h]
  simp

theorem makeChunks_nil (k : Nat) : makeChunks k [] = [] := by
  unfold makeChunks
  rw [List.length_nil, sliceStarts_zero]
  simp

theorem sliceStarts_pos (n k : Nat) (hk : 0 < k) (hn : 0 < n) :
    sliceStarts n k = 0 :: (sliceStarts (n - k) k).map (fun i => i + k) := by
  unfold sliceStarts
  have key : (n + k - 1) / k = ((n - k) + k - 1) / k + 1 := by
    rcases Nat.le_total n k with h | h
    · have h1 : n - k = 0 := by omega
      have h2 : n + k - 1 = (n - 1) + k := by omega
      rw [h1, h2, Nat.add_div_right _ hk, Nat.div_eq_of_lt (by omega),
        Nat.div_eq_of_lt (by omega)]
    · have h2 : n + k - 1 = ((n - k) + k - 1) + k := by omega
      rw [h2, Nat.add_div_right _ hk]
  rw [key, List.range_succ_eq_map]
  simp only [List.map_cons, List.map_map, Nat.zero_mul]
  refine congrArg _ (List.map_congr_left fun j _ => ?_)
  simp [Function.comp, Nat.succ_mul]

theorem makeChunks_cons (k : Nat) (hk : 0 < k) (s : List Char) (hs : s ≠ []) :
    makeChunks k s = s.take k :: makeChunks k (s.drop k) := by
  unfold makeChunks
  rw [sliceStarts_pos s.length k hk (List.length_pos.mpr hs)]
  simp only [List.map_cons, List.map_map, List.length_drop]
  congr 1
  refine List.map_congr_left fun a _ => ?_
  show pySlice s (a + k) k = pySlice (s.drop k) a k
  unfold pySlice
  rw [List.drop_drop, Nat.add_comm]

/-- Concatenating the chunks of one file, in order, reconstructs the file. -/
theorem makeChunks_join (k : Nat) (hk : 0 < k) (s : List Char) :
    (makeChunks k s).flatten = s := by
  generalize hn : s.length = n
  induction n using Nat.strong_induction_on generalizing s with
  | _ n ih =>
    by_cases hs : s = []
    · subst hs
      rw [makeChunks_nil]
      rfl
    · rw [makeChunks_cons k hk s hs, List.flatten_cons]
      have hlt : (s.drop k).length < n := by
        rw [List.length_drop]
        have := List.length_pos.mpr hs
        omega
      rw [ih _ hlt (s.drop k) rfl]
      exact List.take_append_drop k s

/-- No chunk is longer than the threshold. -/
theorem makeChunks_length_le (k : Nat) (s : List Char) :
    ∀ c ∈ makeChunks k s, c.length ≤ k := by
  intro c hc
  obtain ⟨i, _, rfl⟩ := List.mem_map.mp hc
  simp [pySlice, List.length_take]

/-- The `j`-th chunk is exactly the slice starting at offset `j * k`:
chunks cover disjoint, increasing offset ranges. -/
theorem makeChunks_get (k : Nat) (s : List Char) (j : Nat)
    (h : j < (makeChunks k s).length) :
    (makeChunks k s).get ⟨j, h⟩ = pySlice s (j * k) k := by
  unfold makeChunks sliceStarts at *
  simp only [List.get_eq_getElem, List.getElem_map, List.getElem_range]

/-! ## Prompt sequence (`handle_request`, lines 117-122) -/

/-- `f"Please acknowledge and save the following content chunk {i + 1}:\n{chunk}"`
for the `i`-th chunk (0-based `enumerate` index). -/
def ackPrompt (i : Nat) (chunk : List Char) : String :=
  "Please acknowledge and save the following content chunk " ++ toString (i + 1)
    ++ ":\n" ++ String.mk chunk

/-- First fixed analysis prompt appended at line 119. -/
def rfpAnalysisPrompt : String :=
  "RFP Analysis Prompt: Please thoroughly analyze the attached RFP document, including all amendments, Q&A responses, and related attachments. Identify and extract the following key information:\n\nCustomer\x27s primary objectives and requirements\n\nEvaluation criteria and their relative weightings\n\nSubmission deadlines and formatting requirements\n\nAny unique or mandatory compliance requirements\n\nSummarize your findings in a clear, concise report highlighting the most critical elements we must address to be fully responsive and compliant."

/-- Second fixed analysis prompt appended at line 120. -/
def customerProblemPrompt : String :=
  "Customer Problem/Objective Identification Prompt: Based on your analysis of the RFP and any additional customer background information provided, identify the customer\x27s top 3-5 problems, pain points, or strategic objectives that our solution must address to win. For each problem/objective:\n\nDescribe the current situation and its negative impacts on the customer\n\nHighlight the urgency and importance of addressing it\n\nIdentify any specific metrics or success criteria the customer has defined\n\nSuggest potential solution elements or approaches that could effectively tackle the problem\n\nPresent your findings in a prioritized list with supporting rationale for each item."

/-- Third fixed analysis prompt appended at line 121. -/
def draftAssemblyPrompt : String :=
  "Full Proposal Draft Assembly Prompt: Please assemble the complete first draft of the proposal, integrating all AI-generated section content according to the approved outline structure. Ensure that:\n\nAll sections and subsections flow logically and persuasively, with clear transitions and cross-references as needed\n\nAll RFP requirements and evaluation criteria are fully addressed, with no gaps or redundancies\n\nAll win themes, differentiators, and proof points are consistently messaged and mutually reinforcing across sections\n\nContinuity and consistency across all sections in terms of customer focus, tone, style, and reading level\n\nPlaceholders for graphics, tables, and callout boxes are appropriate and properly formatted\n\nAll required attachments, forms, and administrative elements are included and compliant\n\nPlease provide a detailed table of contents and cross-reference matrix to aid in navigation and compliance reviews. Clearly label any areas requiring further SME input or validation."

/-- Fourth fixed analysis prompt appended at line 122. -/
def finalProposalPrompt : String :=
  "Please, according to all consolidated info from previous prompts, create the final proposal (With right format and titles, please write titles and subtitles between **)"

/-- The prompt list built in `handle_request`: one acknowledgment prompt per
chunk (via `enumerate`), then the four fixed analysis prompts appended in
order (lines 118-122). -/
def buildPrompts (contents : List (List Char)) : List String :=
  ((allChunks contents).enum.map (fun p => ackPrompt p.1 p.2)) ++
    [rfpAnalysisPrompt, customerProblemPrompt, draftAssemblyPrompt, finalProposalPrompt]

theorem replicate_ne_nil_of_pos {α : Type} (n : Nat) (a : α) (hn : 0 < n) :
    List.replicate n a ≠ [] := by
  intro h
  have h2 := congrArg List.length h
  rw [List.length_replicate, List.length_nil] at h2
  omega

theorem makeChunks_replicate_50 :
    makeChunks chunk_size (List.replicate 50 'a') = [List.replicate 50 'a'] := by
  rw [makeChunks_cons chunk_size (by decide) _
    (replicate_ne_nil_of_pos 50 'a' (by norm_num)), List.take_replicate,
    List.drop_replicate]
  norm_num [chunk_size, makeChunks_nil]

theorem makeChunks_replicate_150000 :
    makeChunks chunk_size (List.replicate 150000 'b') =
      [List.replicate 100000 'b', List.replicate 50000 'b'] := by
  rw [makeChunks_cons chunk_size (by decide) _
    (replicate_ne_nil_of_pos 150000 'b' (by norm_num)), List.take_replicate,
    List.drop_replicate]
  norm_num [chunk_size]
  rw [makeChunks_cons 100000 (by decide) _
    (replicate_ne_nil_of_pos 50000 'b' (by norm_num)), List.take_replicate,
    List.drop_replicate]
  norm_num [makeChunks_nil]

/-! ## Emphasis-markup renderer (`add_formatted_content`, lines 271-288) -/

/-- A text run added to a generated docx paragraph: its text and whether
`.bold = True` was set on it. -/
structure DocRun where
  text : String
  bold : Bool
deriving DecidableEq, Repr

/-- Python `paragraph.find('**')` on a character list: index of the first
occurrence of two consecutive `*`, or `none` for `-1`. -/
def findStars : List Char → Option Nat
  | [] => none
  | c :: rest =>
    if c = '*' ∧ rest.head? = some '*' then some 0
    else (findStars rest).map (fun i => i + 1)

theorem findStars_bound : ∀ (s : List Char) (i : Nat), findStars s = some i → i + 2 ≤ s.length := by
  intro s
  induction s with
  | nil => intro i h; simp [findStars] at h
  | cons c rest ih =>
    intro i h
    unfold findStars at h
    split at h
    case isTrue hc =>
      cases h
      have : rest ≠ [] := by
        intro hr
        rw [hr] at hc
        simp at hc
      have := List.length_pos.mpr this
      simp
      omega
    case isFalse =>
      obtain ⟨j, hj, rfl⟩ := Option.map_eq_some'.mp h
      have := ih j hj
      simp
      omega

/-- The `while '**' in paragraph` loop body of `add_formatted_content`
(lines 276-288) on one paragraph, producing the run list added to the docx
paragraph.  `start_index = paragraph.find('**')`; `end_index =
paragraph.find('**', start_index + 2)`; on `end_index == -1` the loop breaks
and the whole remaining paragraph is added as one plain run.  The loop
consumes at least four characters per iteration, so `fuel = s.length` never
runs out; the fuel argument only makes the recursion structural. -/
def formatRunsGo : Nat → List Char → List DocRun
  | 0, s => [⟨String.mk s, false⟩]
  | fuel + 1, s =>
    match findStars s with
    | none => [⟨String.mk s, false⟩]
    | some i =>
      match findStars (s.drop (i + 2)) with
      | none => [⟨String.mk s, false⟩]
      | some j =>
        ⟨String.mk (s.take i), false⟩ ::
          ⟨String.mk ((s.drop (i + 2)).take j), true⟩ ::
            formatRunsGo fuel (s.drop (i + 2 + j + 2))

/-- The run list `add_formatted_content` produces for one paragraph. -/
def formatRuns (s : List Char) : List DocRun :=
  formatRunsGo s.length s

/-- Python `content.split('\n')` on a character list: split at every
newline, keeping empty pieces (the empty string splits into one empty
piece). -/
def splitNewlines : List Char → List (List Char)
  | [] => [[]]
  | c :: rest =>
    match splitNewlines rest with
    | [] => [[]]
    | p :: ps => if c = '\n' then [] :: p :: ps else (c :: p) :: ps

/-- `add_formatted_content` (lines 271-288): split the content on `'\n'` and
render each piece as one paragraph of runs. -/
def add_formatted_content (content : String) : List (List DocRun) :=
  (splitNewlines content.toList).map (fun paragraph => formatRuns paragraph)

/-! ## Messages, sorting and transcript rendering (lines 186-199) -/

/-- One thread message as consumed by `handle_request`: its `role`, its
`created_at` timestamp, and `content[0].text.value`. -/
structure Message where
  role : String
  created_at : Nat
  text : String
deriving DecidableEq, Repr

/-- The key order of `sorted(messages.data, key=lambda x: x.created_at)`. -/
def createdLe (a b : Message) : Prop := a.created_at ≤ b.created_at

instance : DecidableRel createdLe := fun a b => Nat.decLe a.created_at b.created_at

instance : IsTotal Message createdLe := ⟨fun a b => Nat.le_total a.created_at b.created_at⟩

instance : IsTrans Message createdLe := ⟨fun _ _ _ h1 h2 => Nat.le_trans h1 h2⟩

/-- Python `sorted(messages.data, key=lambda x: x.created_at)`: a stable
ascending sort, modelled by insertion sort (which is stable). -/
def pySorted (ms : List Message) : List Message := List.insertionSort createdLe ms

/-- Lines 193-199: one chat-history paragraph per message, the role label
with `.bold = True` and the body as a plain run. -/
def renderMessage (m : Message) : List DocRun :=
  [⟨(if m.role = "user" then "User" else "Assistant") ++ ": ", true⟩,
   ⟨m.text, false⟩]

/-- The paragraphs appended to `chat_doc` for one refreshed message list. -/
def renderTranscript (ms : List Message) : List (List DocRun) :=
  ms.map renderMessage

/-! ## Retry, run polling and the prompt loop (lines 136-199) -/

/-- The run statuses of the remote AI service. -/
inductive RunStatus
  | queued
  | in_progress
  | cancelling
  | completed
  | failed
  | cancelled
  | expired
deriving DecidableEq, Repr

/-- The statuses on which the poll loop at line 175 keeps spinning. -/
def RunStatus.isTransient : RunStatus → Bool
  | .queued => true
  | .in_progress => true
  | .cancelling => true
  | _ => false

/-- One `while attempt < 3 and not success` retry loop (lines 137-151,
157-169).  `outcome t` says whether the `t`-th (0-based) attempt of the
remote call succeeds; `remaining = 3 - attempt` counts the loop iterations
still allowed.  Returns whether the loop ended in success, the total number
of attempts made, and the number of `time.sleep(1)` calls (the source sleeps
once after every failed attempt). -/
def retryLoop (outcome : Nat → Bool) : Nat → Nat → Bool × Nat × Nat
  | 0, attempt => (false, attempt, attempt)
  | remaining + 1, attempt =>
    if outcome attempt then (true, attempt + 1, attempt)
    else retryLoop outcome remaining (attempt + 1)

/-- A full 3-attempt retry group starting at `attempt = 0`. -/
def retry3 (outcome : Nat → Bool) : Bool × Nat × Nat :=
  retryLoop outcome 3 0

/-- The poll loop of lines 175-180: starting from the status of the freshly
created run, keep taking the next status returned by `runs.retrieve` while
the current one is transient.  `later` is the finite modelled prefix of the
retrieve-status stream; `none` means the loop is still spinning when the
stream is exhausted (the source has no timeout, so an all-transient stream is
divergence).  Also returns the number of retrieve calls made. -/
def pollRun : RunStatus → List RunStatus → Option (RunStatus × Nat)
  | st, later =>
    if st.isTransient then
      match later with
      | [] => none
      | st2 :: rest => (pollRun st2 rest).map (fun p => (p.1, p.2 + 1))
    else some (st, 0)

/-- Oracle for the remote calls made while processing one prompt. -/
structure PromptEnv where
  /-- Whether the `t`-th `messages.create` attempt for this prompt succeeds. -/
  submitOutcome : Nat → Bool
  /-- Whether the `t`-th `runs.create` attempt for this prompt succeeds. -/
  runOutcome : Nat → Bool
  /-- The status carried by the run object `runs.create` returns. -/
  initialStatus : RunStatus
  /-- The statuses successive `runs.retrieve` calls return. -/
  pollStatuses : List RunStatus
  /-- What `messages.list(...).data` returns after this prompt's run. -/
  messages : List Message

/-- Counters observed while processing one prompt. -/
structure StepTrace where
  submitAttempts : Nat
  submitSleeps : Nat
  runAttempts : Nat
  runSleeps : Nat
  pollCalls : Nat
  fetchedMessages : Bool
deriving DecidableEq, Repr

/-- The loop-carried state of the prompt loop: the paragraphs accumulated in
`chat_doc` (after its heading) and the Python local `sorted_messages`
(`none` models the name being still unassigned). -/
structure LoopState where
  chatParas : List (List DocRun)
  sorted_messages : Option (List Message)
deriving DecidableEq, Repr

/-- Processing of one prompt (lines 136-199).  `none` models the unbounded
poll loop spinning past the modelled status stream. -/
def processPrompt (env : PromptEnv) (st : LoopState) : Option (LoopState × StepTrace) :=
  let sub := retry3 env.submitOutcome
  if !sub.1 then
    -- line 153: `if not success: logging.error(...); continue`
    some (st, ⟨sub.2.1, sub.2.2, 0, 0, 0, false⟩)
  else
    let rn := retry3 env.runOutcome
    if !rn.1 then
      -- line 171: `if not success: logging.error(...); continue`
      some (st, ⟨sub.2.1, sub.2.2, rn.2.1, rn.2.2, 0, false⟩)
    else
      match pollRun env.initialStatus env.pollStatuses with
      | none => none
      | some (terminal, polls) =>
        if terminal ≠ .completed then
          -- line 182: log and `continue`; `messages.list` is NOT reached
          some (st, ⟨sub.2.1, sub.2.2, rn.2.1, rn.2.2, polls, false⟩)
        else
          let sm := pySorted env.messages
          some ({ chatParas := st.chatParas ++ renderTranscript sm,
                  sorted_messages := some sm },
                ⟨sub.2.1, sub.2.2, rn.2.1, rn.2.2, polls, true⟩)

/-- The `for i, prompt in enumerate(prompts)` loop, threading the state and
collecting the per-prompt traces. -/
def orchLoop : List PromptEnv → LoopState → Option (LoopState × List StepTrace)
  | [], st => some (st, [])
  | env :: rest, st =>
    match processPrompt env st with
    | none => none
    | some (st2, tr) =>
      match orchLoop rest st2 with
      | none => none
      | some (stf, trs) => some (stf, tr :: trs)

/-- The fatal outcomes of the orchestration phase. -/
inductive OrchError
  /-- `client.beta.threads.create()` raised; `handle_request` re-raises
  (lines 129-131). -/
  | threadCreationFailed
  /-- Python `UnboundLocalError` at line 207: the local `sorted_messages`
  was never assigned because no prompt ever reached `messages.list`. -/
  | unboundLocalSortedMessages
deriving DecidableEq, Repr

/-- The two documents built and the uploads performed (lines 201-217). -/
structure Documents where
  chatHeading : String
  chatParas : List (List DocRun)
  draftHeading : String
  draftParas : List (List DocRun)
  uploads : List String
deriving DecidableEq, Repr

/-- Lines 201-217: build the chat-history and draft documents from the final
loop state and record the two uploads.  Reading `sorted_messages` when it was
never assigned raises `UnboundLocalError`; when it is an empty list the
conditional expression at line 207 falls back to `"No response available."`,
otherwise the draft is built from `sorted_messages[-1]`. -/
def assembleDocuments (st : LoopState) : Except OrchError Documents :=
  match st.sorted_messages with
  | none => .error .unboundLocalSortedMessages
  | some sm =>
    let last_response :=
      match sm.getLast? with
      | some m => m.text
      | none => "No response available."
    .ok { chatHeading := "Chat History"
          chatParas := st.chatParas
          draftHeading := "Draft Proposal"
          draftParas := add_formatted_content last_response
          uploads := ["chat_history.docx", "draft_response.docx"] }

/-- The orchestration phase of `handle_request` (lines 124-217), from thread
creation on.  `threadOk` says whether `client.beta.threads.create()`
succeeds; `envs` is the oracle for each prompt in order.  The outer `none`
models the poll loop never terminating. -/
def handle_request (threadOk : Bool) (envs : List PromptEnv) :
    Option (Except OrchError Documents) :=
  if !threadOk then some (.error .threadCreationFailed)
  else
    match orchLoop envs ⟨[], none⟩ with
    | none => none
    | some (st, _) => some (assembleDocuments st)

/-! ## Per-file content extraction (`process_file` family, lines 222-269) -/

/-- Outcome of an external parser applied to raw bytes: the text it
extracts, or the exception it raises. -/
inductive ParseOutcome
  | ok (text : String)
  | raises (msg : String)
deriving DecidableEq, Repr

/-- Abstract raw file content, described by what each external parser does
with it: `pd.read_excel(...).to_string()`, `DocxDocument` paragraph
extraction, `pdfplumber` page extraction, `pptx.Presentation` shape
extraction, `bytes.decode('utf-8')`, and the `.doc` → `.docx` converter. -/
structure FileBytes where
  excelParse : ParseOutcome
  wordParse : ParseOutcome
  pdfParse : ParseOutcome
  pptParse : ParseOutcome
  textDecode : ParseOutcome
  docConvert : ParseOutcome
deriving DecidableEq, Repr

/-- `process_excel` (lines 239-245): the only extractor wrapped in
`try/except`; an exception becomes the returned error text. -/
def process_excel (c : FileBytes) : String :=
  match c.excelParse with
  | .ok t => t
  | .raises e => "Error processing Excel file: " ++ e

/-- `process_word` (lines 247-250): no exception handling. -/
def process_word (c : FileBytes) : Except String String :=
  match c.wordParse with
  | .ok t => .ok t
  | .raises e => .error e

/-- `process_pdf` (lines 252-257): no exception handling. -/
def process_pdf (c : FileBytes) : Except String String :=
  match c.pdfParse with
  | .ok t => .ok t
  | .raises e => .error e

/-- `process_ppt` (lines 259-266): no exception handling. -/
def process_ppt (c : FileBytes) : Except String String :=
  match c.pptParse with
  | .ok t => .ok t
  | .raises e => .error e

/-- `process_text` (lines 268-269): no exception handling. -/
def process_text (c : FileBytes) : Except String String :=
  match c.textDecode with
  | .ok t => .ok t
  | .raises e => .error e

/-- `process_file` (lines 222-237); `ext` stands for
`os.path.splitext(file_name)[1].lower()`.  A `.error` result models an
exception escaping `process_file`. -/
def process_file (ext : String) (c : FileBytes) : Except String String :=
  if ext = ".xlsx" ∨ ext = ".xls" then .ok (process_excel c)
  else if ext = ".docx" ∨ ext = ".doc" then
    if ext = ".doc" then
      match c.docConvert with
      | .raises e => .error e
      | .ok _ => process_word c
    else process_word c
  else if ext = ".pdf" then process_pdf c
  else if ext = ".pptx" then process_ppt c
  else if ext = ".txt" then process_text c
  else .ok ("Unsupported file type: " ++ ext)

/-! ## HTTP entry point (`proposals_function/__init__.py`) -/

/-- A JSON value, as produced by `req.get_json()`. -/
inductive JValue
  | jnull
  | jbool (b : Bool)
  | jnum (n : Int)
  | jstr (s : String)
  | jarr (elems : List JValue)
  | jobj (fields : List (String × JValue))

/-- Python truthiness of a JSON value, as used by
`if not attachments_folder_id or not response_folder_id`. -/
def truthy : JValue → Bool
  | .jnull => false
  | .jbool b => b
  | .jnum n => n != 0
  | .jstr s => s != ""
  | .jarr es => !es.isEmpty
  | .jobj fs => !fs.isEmpty

/-- Python `dict.get(key)`: `none` models the returned `None` for an absent
key. -/
def jsonGet (fields : List (String × JValue)) (key : String) : Option JValue :=
  (fields.find? (fun p => p.1 == key)).map (fun p => p.2)

/-- Python truthiness of a `dict.get` result (`None` is falsy). -/
def truthyOpt : Option JValue → Bool
  | none => false
  | some v => truthy v

/-- The observable outcome of one call of `main`. -/
structure HttpOutcome where
  status : Nat
  body : String
  dispatchedBackground : Bool
deriving DecidableEq, Repr

/-- `main` of `proposals_function/__init__.py`.  The argument is the result
of `req.get_json()`: `none` when the body is not parseable JSON (the call
raises, landing in the `except` branch).  A body parsing to a non-object
also lands in the `except` branch, because `.get` on a non-dict raises
`AttributeError`.  Only the 202 branch starts the background thread. -/
def main (parsedBody : Option JValue) : HttpOutcome :=
  match parsedBody with
  | none => ⟨500, "An error occurred. Check logs for details.", false⟩
  | some (.jobj fields) =>
    let a := jsonGet fields "attachments_folder_id"
    let r := jsonGet fields "response_folder_id"
    if !truthyOpt a || !truthyOpt r then
      ⟨400, "Missing folder IDs in the request body.", false⟩
    else
      ⟨202, "The function is processing in the background. Check logs for details.", true⟩
  | some _ => ⟨500, "An error occurred. Check logs for details.", false⟩

/-! ## Shared concrete instances and helper lemmas -/

/-- A concrete user message. -/
def msgU1 : Message := ⟨"user", 1, "p1"⟩

/-- A concrete assistant message. -/
def msgA1 : Message := ⟨"assistant", 2, "r1"⟩

/-- A later concrete user message. -/
def msgU2 : Message := ⟨"user", 3, "p2"⟩

/-- A later concrete assistant message; its text is the final draft text. -/
def msgA2 : Message := ⟨"assistant", 4, "**Title** body"⟩

/-- A prompt environment where every remote call succeeds at once, the run is
already `completed` when created, and `messages.list` returns `ms`. -/
def envOkWith (ms : List Message) : PromptEnv :=
  ⟨fun _ => true, fun _ => true, .completed, [], ms⟩

/-- A prompt environment where every `messages.create` and `runs.create`
attempt raises. -/
def envSubmitFail : PromptEnv :=
  ⟨fun _ => false, fun _ => false, .completed, [], []⟩

/-- A prompt environment whose submission and run creation succeed but whose
run ends in the `failed` terminal status; the service side does hold a
message. -/
def envRunFailStatus : PromptEnv :=
  ⟨fun _ => true, fun _ => true, .failed, [], [msgU1]⟩

/-- Whether one prompt makes it all the way to the `messages.list` refresh:
submission succeeded, run creation succeeded, and the run's observed terminal
status is `completed`. -/
def promptSucceedsB (env : PromptEnv) : Bool :=
  (retry3 env.submitOutcome).1 && (retry3 env.runOutcome).1 &&
    (match pollRun env.initialStatus env.pollStatuses with
     | some (.completed, _) => true
     | _ => false)

theorem retry3_attempts_le (outcome : Nat → Bool) :
    (retry3 outcome).2.1 ≤ 3 ∧
    ((retry3 outcome).1 = true → (retry3 outcome).2.2 + 1 = (retry3 outcome).2.1) ∧
    ((retry3 outcome).1 = false →
      (retry3 outcome).2.1 = 3 ∧ (retry3 outcome).2.2 = 3) := by
  by_cases h0 : outcome 0 <;> by_cases h1 : outcome 1 <;> by_cases h2 : outcome 2 <;>
    simp [retry3, retryLoop, h0, h1, h2]

theorem retry3_all_false (outcome : Nat → Bool) (h : ∀ t, outcome t = false) :
    retry3 outcome = (false, 3, 3) := by
  simp [retry3, retryLoop, h 0, h 1, h 2]

theorem processPrompt_submit_fail (env : PromptEnv) (st : LoopState)
    (h : (retry3 env.submitOutcome).1 = false) :
    processPrompt env st =
      some (st, ⟨(retry3 env.submitOutcome).2.1, (retry3 env.submitOutcome).2.2,
        0, 0, 0, false⟩) := by
  simp [processPrompt, h]

theorem processPrompt_run_fail (env : PromptEnv) (st : LoopState)
    (hs : (retry3 env.submitOutcome).1 = true)
    (hr : (retry3 env.runOutcome).1 = false) :
    processPrompt env st =
      some (st, ⟨(retry3 env.submitOutcome).2.1, (retry3 env.submitOutcome).2.2,
        (retry3 env.runOutcome).2.1, (retry3 env.runOutcome).2.2, 0, false⟩) := by
  simp [processPrompt, hs, hr]

theorem processPrompt_status_fail (env : PromptEnv) (st : LoopState)
    (terminal : RunStatus) (polls : Nat)
    (hs : (retry3 env.submitOutcome).1 = true)
    (hr : (retry3 env.runOutcome).1 = true)
    (hp : pollRun env.initialStatus env.pollStatuses = some (terminal, polls))
    (ht : terminal ≠ .completed) :
    processPrompt env st =
      some (st, ⟨(retry3 env.submitOutcome).2.1, (retry3 env.submitOutcome).2.2,
        (retry3 env.runOutcome).2.1, (retry3 env.runOutcome).2.2, polls, false⟩) := by
  simp [processPrompt, hs, hr, hp, ht]

theorem processPrompt_completed (env : PromptEnv) (st : LoopState) (polls : Nat)
    (hs : (retry3 env.submitOutcome).1 = true)
    (hr : (retry3 env.runOutcome).1 = true)
    (hp : pollRun env.initialStatus env.pollStatuses = some (.completed, polls)) :
    processPrompt env st =
      some (⟨st.chatParas ++ renderTranscript (pySorted env.messages),
             some (pySorted env.messages)⟩,
        ⟨(retry3 env.submitOutcome).2.1, (retry3 env.submitOutcome).2.2,
         (retry3 env.runOutcome).2.1, (retry3 env.runOutcome).2.2, polls, true⟩) := by
  simp [processPrompt, hs, hr, hp]

/-- How one prompt step changes the loop state, sorted by whether the prompt
made it to the `messages.list` refresh. -/
theorem processPrompt_cases (env : PromptEnv) (st st2 : LoopState) (tr : StepTrace)
    (h : processPrompt env st = some (st2, tr)) :
    (promptSucceedsB env = true ∧
      st2 = ⟨st.chatParas ++ renderTranscript (pySorted env.messages),
             some (pySorted env.messages)⟩) ∨
    (promptSucceedsB env = false ∧ st2 = st) := by
  by_cases hs : (retry3 env.submitOutcome).1 = true
  case neg =>
    rw [Bool.not_eq_true] at hs
    rw [processPrompt_submit_fail env st hs] at h
    simp at h
    right
    exact ⟨by simp [promptSucceedsB, hs], h.1.symm⟩
  case pos =>
    by_cases hr : (retry3 env.runOutcome).1 = true
    case neg =>
      rw [Bool.not_eq_true] at hr
      rw [processPrompt_run_fail env st hs hr] at h
      simp at h
      right
      exact ⟨by simp [promptSucceedsB, hs, hr], h.1.symm⟩
    case pos =>
      match hp : pollRun env.initialStatus env.pollStatuses with
      | none =>
        rw [processPrompt] at h
        simp [hs, hr, hp] at h
      | some (terminal, polls) =>
        by_cases ht : terminal = RunStatus.completed
        case pos =>
          subst ht
          rw [processPrompt_completed env st polls hs hr hp] at h
          simp at h
          left
          exact ⟨by simp [promptSucceedsB, hs, hr, hp], h.1.symm⟩
        case neg =>
          rw [processPrompt_status_fail env st terminal polls hs hr hp ht] at h
          simp at h
          right
          refine ⟨?_, h.1.symm⟩
          simp only [promptSucceedsB, hs, hr, hp, Bool.true_and]
          cases terminal <;> simp_all

theorem orchLoop_length (envs : List PromptEnv) (st stf : LoopState)
    (trs : List StepTrace) (h : orchLoop envs st = some (stf, trs)) :
    trs.length = envs.length := by
  induction envs generalizing st stf trs with
  | nil => simp [orchLoop] at h; simp [h.2.symm]
  | cons env rest ih =>
    unfold orchLoop at h
    split at h
    case _ => exact absurd h (by simp)
    case _ st2 tr hp =>
      split at h
      case _ => exact absurd h (by simp)
      case _ stf2 trs2 hrest =>
        simp at h
        rw [← h.2]
        simp [ih st2 stf2 trs2 hrest]

/-- The transcript accumulated by the loop is the concatenation of one full
sorted snapshot per prompt that completed, and `sorted_messages` holds the
snapshot of the last completed prompt (or its initial value). -/
theorem orchLoop_characterization (envs : List PromptEnv) (st0 stf : LoopState)
    (trs : List StepTrace) (h : orchLoop envs st0 = some (stf, trs)) :
    stf.chatParas = st0.chatParas ++
      ((envs.filter promptSucceedsB).map
        (fun e => renderTranscript (pySorted e.messages))).flatten ∧
    stf.sorted_messages =
      ((envs.filter promptSucceedsB).map
        (fun e => some (pySorted e.messages))).getLastD st0.sorted_messages := by
  induction envs generalizing st0 stf trs with
  | nil =>
    simp [orchLoop] at h
    simp [h.1.symm]
  | cons env rest ih =>
    unfold orchLoop at h
    split at h
    case _ => exact absurd h (by simp)
    case _ st2 tr hp =>
      split at h
      case _ => exact absurd h (by simp)
      case _ stf2 trs2 hrest =>
        simp at h
        obtain ⟨hst, _⟩ := h
        subst hst
        obtain ⟨hchat, hsm⟩ := ih st2 stf2 trs2 hrest
        rcases processPrompt_cases env st0 st2 tr hp with ⟨hsucc, hst2⟩ | ⟨hfail, hst2⟩
        · subst hst2
          rw [List.filter_cons, hsucc]
          simp only [if_true, List.map_cons, List.flatten_cons, List.getLastD_cons]
          constructor
          · rw [hchat]
            simp [List.append_assoc]
          · exact hsm
        · subst hst2
          rw [List.filter_cons, hfail]
          simp only [Bool.false_eq_true, if_false]
          exact ⟨hchat, hsm⟩

/-- A prompt environment whose submission succeeds but whose run creation
fails on all three attempts. -/
def envRunCreateFail : PromptEnv :=
  ⟨fun _ => true, fun _ => false, .completed, [], []⟩

/-! ## Claims -/

/-- C1: the claim says that even when every prompt fails, `handle_request`
still completes and uploads both documents.  The code does not: when no
prompt ever reaches `messages.list`, the local `sorted_messages` is unbound
at line 207 and `handle_request` raises (and re-raises) an
`UnboundLocalError`, uploading nothing — despite the code's own
`"No response available."` fallback showing the intended graceful path.
Evaluated here on a batch with one prompt per failure mode: submission
retries exhausted, run-creation retries exhausted, and a `failed` terminal
status. -/
theorem all_prompts_failed_aborts :
    handle_request true [envSubmitFail, envRunCreateFail, envRunFailStatus] =
      some (.error .unboundLocalSortedMessages) := rfl

/-- C2 counterexample: with two successfully completed prompts the chat
document does not contain each message exactly once — the full sorted
snapshot is re-appended after every successful prompt, so the first user
message appears twice. -/
theorem transcript_duplicates_counterexample :
    handle_request true
        [envOkWith [msgU1, msgA1], envOkWith [msgU1, msgA1, msgU2, msgA2]] =
      some (.ok ⟨"Chat History",
        renderTranscript [msgU1, msgA1] ++
          renderTranscript [msgU1, msgA1, msgU2, msgA2],
        "Draft Proposal", add_formatted_content msgA2.text,
        ["chat_history.docx", "draft_response.docx"]⟩) ∧
    List.count (renderMessage msgU1)
      (renderTranscript [msgU1, msgA1] ++
        renderTranscript [msgU1, msgA1, msgU2, msgA2]) = 2 := by
  exact ⟨rfl, by decide⟩

/-- C2 (amended): the transcript document is the concatenation, over the
prompts that completed successfully, of the full message snapshot of that
prompt sorted non-decreasing by creation time (so a message appears once per
successful prompt at or after its creation, not exactly once); sorting is
idempotent; and the draft document is built only from the text of the
chronologically last message of the final snapshot. -/
theorem transcript_snapshots_amended (envs : List PromptEnv) (stf : LoopState)
    (trs : List StepTrace) (hloop : orchLoop envs ⟨[], none⟩ = some (stf, trs)) :
    stf.chatParas = ((envs.filter promptSucceedsB).map
      (fun e => renderTranscript (pySorted e.messages))).flatten ∧
    stf.sorted_messages = ((envs.filter promptSucceedsB).map
      (fun e => some (pySorted e.messages))).getLastD none ∧
    (∀ ms : List Message, List.Sorted createdLe (pySorted ms)) ∧
    (∀ ms : List Message, pySorted (pySorted ms) = pySorted ms) ∧
    (∀ sm last, stf.sorted_messages = some sm → sm.getLast? = some last →
      assembleDocuments stf = .ok ⟨"Chat History", stf.chatParas,
        "Draft Proposal", add_formatted_content last.text,
        ["chat_history.docx", "draft_response.docx"]⟩) := by
  obtain ⟨hchat, hsm⟩ := orchLoop_characterization envs ⟨[], none⟩ stf trs hloop
  refine ⟨by simpa using hchat, by simpa using hsm, ?_, ?_, ?_⟩
  · exact fun ms => List.sorted_insertionSort createdLe ms
  · exact fun ms => (List.sorted_insertionSort createdLe ms).insertionSort_eq
  · intro sm last h1 h2
    simp only [assembleDocuments, h1, h2]

/-- C2 witness: the amended theorem applied to one successfully completed
prompt whose snapshot is `[msgU1, msgA1]`. -/
theorem transcript_snapshots_amended_witness :
    assembleDocuments ⟨renderTranscript [msgU1, msgA1], some [msgU1, msgA1]⟩ =
      .ok ⟨"Chat History", renderTranscript [msgU1, msgA1], "Draft Proposal",
        add_formatted_content msgA1.text,
        ["chat_history.docx", "draft_response.docx"]⟩ :=
  (transcript_snapshots_amended [envOkWith [msgU1, msgA1]]
      ⟨renderTranscript [msgU1, msgA1], some [msgU1, msgA1]⟩
      [⟨1, 0, 1, 0, 0, true⟩] rfl).2.2.2.2 [msgU1, msgA1] msgA1 rfl rfl

/-- C3 counterexample: extraction of a corrupt PDF (and likewise a corrupt
Word file) raises out of the extractor — `process_pdf` and `process_word`
have no exception handling, so the error is not converted into returned
text. -/
theorem extractor_pdf_raises_counterexample :
    process_file ".pdf"
        ⟨.ok "", .ok "", .raises "corrupt pdf", .ok "", .ok "", .ok ""⟩ =
      .error "corrupt pdf" ∧
    process_file ".docx"
        ⟨.ok "", .raises "corrupt docx", .ok "", .ok "", .ok "", .ok ""⟩ =
      .error "corrupt docx" := ⟨rfl, rfl⟩

/-- C3 (amended): only Excel parse errors and unsupported extensions are
converted into a textual message returned in place of extracted content;
extraction errors on Word, PDF, PowerPoint and text files (and `.doc`
conversion failures) propagate out of `process_file`. -/
theorem extractor_error_handling_amended :
    (∀ (c : FileBytes) (e : String), c.excelParse = .raises e →
      process_file ".xlsx" c = .ok ("Error processing Excel file: " ++ e) ∧
      process_file ".xls" c = .ok ("Error processing Excel file: " ++ e)) ∧
    (∀ c : FileBytes, process_file ".csv" c = .ok "Unsupported file type: .csv") ∧
    (∀ (c : FileBytes) (e : String), c.wordParse = .raises e →
      process_file ".docx" c = .error e) ∧
    (∀ (c : FileBytes) (e : String), c.pdfParse = .raises e →
      process_file ".pdf" c = .error e) ∧
    (∀ (c : FileBytes) (e : String), c.pptParse = .raises e →
      process_file ".pptx" c = .error e) ∧
    (∀ (c : FileBytes) (e : String), c.textDecode = .raises e →
      process_file ".txt" c = .error e) := by
  refine ⟨?_, fun c => rfl, ?_, ?_, ?_, ?_⟩
  · intro c e h
    constructor <;> simp [process_file, process_excel, h]
  · intro c e h
    simp [process_file, process_word, h]
  · intro c e h
    simp [process_file, process_pdf, h]
  · intro c e h
    simp [process_file, process_ppt, h]
  · intro c e h
    simp [process_file, process_text, h]

/-- C3 witness: the amended theorem applied to concrete corrupt contents. -/
theorem extractor_error_handling_amended_witness :
    process_file ".xlsx"
        ⟨.raises "bad sheet", .ok "", .ok "", .ok "", .ok "", .ok ""⟩ =
      .ok "Error processing Excel file: bad sheet" ∧
    process_file ".txt"
        ⟨.ok "", .ok "", .ok "", .ok "", .raises "bad utf8", .ok ""⟩ =
      .error "bad utf8" :=
  ⟨(extractor_error_handling_amended.1
      ⟨.raises "bad sheet", .ok "", .ok "", .ok "", .ok "", .ok ""⟩
      "bad sheet" rfl).1,
   extractor_error_handling_amended.2.2.2.2.2
      ⟨.ok "", .ok "", .ok "", .ok "", .raises "bad utf8", .ok ""⟩
      "bad utf8" rfl⟩

/-- C4 counterexample: a run that terminates `failed` is logged and skipped,
but the message list is NOT refreshed — line 184's `continue` jumps over the
`messages.list` call, so the loop state is unchanged and no fetch happens
(`fetchedMessages = false`) even though the service side holds a message. -/
theorem run_failed_no_refresh_counterexample :
    processPrompt envRunFailStatus ⟨[], none⟩ =
      some (⟨[], none⟩, ⟨1, 0, 1, 0, 0, false⟩) ∧
    envRunFailStatus.messages = [msgU1] := ⟨rfl, rfl⟩

/-- C4 (amended): whenever a run reaches a terminal status other than
`completed`, the orchestrator skips to the next prompt WITHOUT refreshing
the thread's message list: the loop state (transcript and `sorted_messages`)
is unchanged and no `messages.list` call is made for that prompt. -/
theorem run_failed_skips_without_refresh (env : PromptEnv) (st : LoopState)
    (terminal : RunStatus) (polls : Nat)
    (hs : (retry3 env.submitOutcome).1 = true)
    (hr : (retry3 env.runOutcome).1 = true)
    (hp : pollRun env.initialStatus env.pollStatuses = some (terminal, polls))
    (ht : terminal ≠ .completed) :
    processPrompt env st =
      some (st, ⟨(retry3 env.submitOutcome).2.1, (retry3 env.submitOutcome).2.2,
        (retry3 env.runOutcome).2.1, (retry3 env.runOutcome).2.2,
        polls, false⟩) :=
  processPrompt_status_fail env st terminal polls hs hr hp ht

/-- C4 witness: the amended theorem applied to a concrete environment whose
run ends `failed` immediately. -/
theorem run_failed_skips_without_refresh_witness :
    processPrompt envRunFailStatus ⟨renderTranscript [msgU1], some [msgU1]⟩ =
      some (⟨renderTranscript [msgU1], some [msgU1]⟩,
        ⟨1, 0, 1, 0, 0, false⟩) :=
  run_failed_skips_without_refresh envRunFailStatus
    ⟨renderTranscript [msgU1], some [msgU1]⟩ .failed 0 rfl rfl rfl (by decide)

/-- C5: chunking with the fixed threshold 100000 is a lossless partition:
the concatenation of all chunks of an input reconstructs it exactly, no
chunk exceeds the threshold, the empty input yields no chunks, and the
`j`-th chunk is exactly the slice at offset `j * 100000` (chunks are
non-overlapping and in original offset order). -/
theorem chunking_lossless_partition :
    (∀ s : List Char, (makeChunks chunk_size s).flatten = s) ∧
    (∀ s : List Char, ∀ c ∈ makeChunks chunk_size s, c.length ≤ chunk_size) ∧
    makeChunks chunk_size [] = [] ∧
    (∀ (s : List Char) (j : Nat) (h : j < (makeChunks chunk_size s).length),
      (makeChunks chunk_size s).get ⟨j, h⟩ =
        pySlice s (j * chunk_size) chunk_size) :=
  ⟨fun s => makeChunks_join chunk_size (by decide) s,
   fun s => makeChunks_length_le chunk_size s,
   makeChunks_nil chunk_size,
   fun s j h => makeChunks_get chunk_size s j h⟩

/-- C5 witness: the partition facts evaluated on a concrete two-character
input. -/
theorem chunking_lossless_partition_witness :
    (makeChunks chunk_size ['x', 'y']).flatten = ['x', 'y'] ∧
    (makeChunks chunk_size ['x', 'y']).get ⟨0, by decide⟩ =
      pySlice ['x', 'y'] (0 * chunk_size) chunk_size :=
  ⟨chunking_lossless_partition.1 ['x', 'y'],
   chunking_lossless_partition.2.2.2 ['x', 'y'] 0 (by decide)⟩

/-- C6: the prompt sequence is exactly one acknowledgment prompt per chunk,
in chunk order, followed by the four fixed analysis prompts in fixed order;
for inputs of 50 and 150000 characters the chunks are of sizes 50, 100000
and 50000, giving 7 prompts in that relative order. -/
theorem prompt_sequence_structure :
    (∀ contents, buildPrompts contents =
      ((allChunks contents).enum.map (fun p => ackPrompt p.1 p.2)) ++
        [rfpAnalysisPrompt, customerProblemPrompt, draftAssemblyPrompt,
         finalProposalPrompt]) ∧
    allChunks [List.replicate 50 'a', List.replicate 150000 'b'] =
      [List.replicate 50 'a', List.replicate 100000 'b',
       List.replicate 50000 'b'] ∧
    (allChunks [List.replicate 50 'a', List.replicate 150000 'b']).map
      List.length = [50, 100000, 50000] ∧
    buildPrompts [List.replicate 50 'a', List.replicate 150000 'b'] =
      [ackPrompt 0 (List.replicate 50 'a'),
       ackPrompt 1 (List.replicate 100000 'b'),
       ackPrompt 2 (List.replicate 50000 'b'),
       rfpAnalysisPrompt, customerProblemPrompt, draftAssemblyPrompt,
       finalProposalPrompt] ∧
    (buildPrompts [List.replicate 50 'a', List.replicate 150000 'b']).length =
      7 := by
  have hch : allChunks [List.replicate 50 'a', List.replicate 150000 'b'] =
      [List.replicate 50 'a', List.replicate 100000 'b',
       List.replicate 50000 'b'] := by
    unfold allChunks
    rw [List.map_cons, List.map_cons, List.map_nil,
      makeChunks_replicate_50, makeChunks_replicate_150000]
    rfl
  have hbp : buildPrompts [List.replicate 50 'a', List.replicate 150000 'b'] =
      [ackPrompt 0 (List.replicate 50 'a'),
       ackPrompt 1 (List.replicate 100000 'b'),
       ackPrompt 2 (List.replicate 50000 'b'),
       rfpAnalysisPrompt, customerProblemPrompt, draftAssemblyPrompt,
       finalProposalPrompt] := by
    unfold buildPrompts
    rw [hch]
    rfl
  refine ⟨fun _ => rfl, hch, ?_, hbp, ?_⟩
  · rw [hch]
    simp only [List.map_cons, List.map_nil, List.length_replicate]
  · rw [hbp]
    rfl

/-- C7: the emphasis renderer turns `"a **b** c"` into the runs `"a "`
(plain), `"b"` (bold), `" c"` (plain); an input whose trailing `**` is
unpaired, like `"a **b"`, is rendered entirely as one plain literal run
with no emphasis applied — in general, whenever an opening marker has no
closing marker, the whole remaining paragraph becomes a single plain run. -/
theorem emphasis_renderer :
    formatRuns ("a **b** c".toList) =
      [⟨"a ", false⟩, ⟨"b", true⟩, ⟨" c", false⟩] ∧
    formatRuns ("a **b".toList) = [⟨"a **b", false⟩] ∧
    add_formatted_content "a **b** c" =
      [[⟨"a ", false⟩, ⟨"b", true⟩, ⟨" c", false⟩]] ∧
    (∀ (s : List Char) (i : Nat), findStars s = some i →
      findStars (s.drop (i + 2)) = none →
      formatRuns s = [⟨String.mk s, false⟩]) := by
  refine ⟨by decide, by decide, by decide, ?_⟩
  intro s i h1 h2
  have hb := findStars_bound s i h1
  obtain ⟨n, hn⟩ : ∃ n, s.length = n + 1 := ⟨s.length - 1, by omega⟩
  unfold formatRuns
  rw [hn]
  simp only [formatRunsGo, h1, h2]

/-- C7 witness: the unpaired-marker clause applied to the concrete input
`"x **y"`. -/
theorem emphasis_renderer_witness :
    formatRuns ("x **y".toList) = [⟨String.mk ("x **y".toList), false⟩] :=
  emphasis_renderer.2.2.2 ("x **y".toList) 2 (by decide) (by decide)

/-- C8: submission and run creation are each attempted at most 3 times per
prompt, with one 1-second sleep after each failed attempt (so sleeps sit
between consecutive attempts, and on success the attempt count is one more
than the sleep count while on exhaustion both are 3); exhausting either
retry group skips the prompt without raising, leaving the state unchanged;
and the loop emits exactly one trace (one submit group) per prompt, so a
failed run is never resubmitted. -/
theorem retry_policy :
    (∀ outcome : Nat → Bool, (retry3 outcome).2.1 ≤ 3 ∧
      ((retry3 outcome).1 = true →
        (retry3 outcome).2.2 + 1 = (retry3 outcome).2.1) ∧
      ((retry3 outcome).1 = false →
        (retry3 outcome).2.1 = 3 ∧ (retry3 outcome).2.2 = 3)) ∧
    (∀ env st, (retry3 env.submitOutcome).1 = false →
      processPrompt env st = some (st, ⟨(retry3 env.submitOutcome).2.1,
        (retry3 env.submitOutcome).2.2, 0, 0, 0, false⟩)) ∧
    (∀ env st, (retry3 env.submitOutcome).1 = true →
      (retry3 env.runOutcome).1 = false →
      processPrompt env st = some (st, ⟨(retry3 env.submitOutcome).2.1,
        (retry3 env.submitOutcome).2.2, (retry3 env.runOutcome).2.1,
        (retry3 env.runOutcome).2.2, 0, false⟩)) ∧
    (∀ envs st stf trs, orchLoop envs st = some (stf, trs) →
      trs.length = envs.length) :=
  ⟨retry3_attempts_le, processPrompt_submit_fail, processPrompt_run_fail,
   orchLoop_length⟩

/-- C8 witness: a prompt whose submissions all fail is skipped with exactly
3 attempts and 3 sleeps and an unchanged state. -/
theorem retry_policy_witness :
    processPrompt envSubmitFail ⟨[], none⟩ =
      some (⟨[], none⟩, ⟨3, 3, 0, 0, 0, false⟩) :=
  retry_policy.2.1 envSubmitFail ⟨[], none⟩ rfl

theorem orchLoop_all_submit_fail (envs : List PromptEnv) (st : LoopState)
    (hsub : ∀ e ∈ envs, ∀ t, e.submitOutcome t = false) :
    orchLoop envs st =
      some (st, List.replicate envs.length ⟨3, 3, 0, 0, 0, false⟩) := by
  induction envs generalizing st with
  | nil => rfl
  | cons env rest ih =>
    have he : retry3 env.submitOutcome = (false, 3, 3) :=
      retry3_all_false _ (hsub env (by simp))
    simp only [orchLoop,
      processPrompt_submit_fail env st (by rw [he]),
      ih st (fun e hmem t => hsub e (List.mem_cons_of_mem env hmem) t),
      he, List.length_cons, List.replicate_succ]

/-- C9: when every remote `messages.create` and `runs.create` call fails,
the orchestration loop still terminates, producing exactly one trace per
prompt; every trace records 3 submit attempts, no run attempts, and no poll
calls, so the total work is 3 N submit attempts, 0 run attempts, and the
unbounded poll loop is never entered. -/
theorem bounded_failure_termination (envs : List PromptEnv)
    (hsub : ∀ e ∈ envs, ∀ t, e.submitOutcome t = false)
    (hrun : ∀ e ∈ envs, ∀ t, e.runOutcome t = false) :
    ∃ trs, orchLoop envs ⟨[], none⟩ = some (⟨[], none⟩, trs) ∧
      trs.length = envs.length ∧
      (∀ tr ∈ trs, tr = ⟨3, 3, 0, 0, 0, false⟩) ∧
      (trs.map StepTrace.submitAttempts).sum = 3 * envs.length ∧
      (trs.map StepTrace.runAttempts).sum = 0 ∧
      (trs.map StepTrace.pollCalls).sum = 0 := by
  refine ⟨List.replicate envs.length ⟨3, 3, 0, 0, 0, false⟩,
    orchLoop_all_submit_fail envs ⟨[], none⟩ hsub, by simp, ?_, ?_, ?_, ?_⟩
  · intro tr htr
    exact List.eq_of_mem_replicate htr
  · simp [List.map_replicate, List.sum_replicate, Nat.mul_comm]
  · simp [List.map_replicate, List.sum_replicate]
  · simp [List.map_replicate, List.sum_replicate]

/-- C9 witness: a two-prompt batch in which every remote call fails
terminates with two skip traces and no poll calls. -/
theorem bounded_failure_termination_witness :
    ∃ trs, orchLoop [envSubmitFail, envSubmitFail] ⟨[], none⟩ =
        some (⟨[], none⟩, trs) ∧
      trs.length = 2 ∧
      (∀ tr ∈ trs, tr = ⟨3, 3, 0, 0, 0, false⟩) ∧
      (trs.map StepTrace.submitAttempts).sum = 3 * 2 ∧
      (trs.map StepTrace.runAttempts).sum = 0 ∧
      (trs.map StepTrace.pollCalls).sum = 0 :=
  bounded_failure_termination [envSubmitFail, envSubmitFail]
    (fun e he t => by
      rcases List.mem_cons.mp he with rfl | he2
      · rfl
      · rcases List.mem_singleton.mp he2 with rfl
        rfl)
    (fun e he t => by
      rcases List.mem_cons.mp he with rfl | he2
      · rfl
      · rcases List.mem_singleton.mp he2 with rfl
        rfl)

/-- C10 counterexample: the body `[]` is parseable JSON with both folder-id
fields missing, so the claim predicts the 400 rejection, but `main` returns
500 (the `.get` call on a non-dict raises and lands in the `except`
branch). -/
theorem entry_point_nonobject_counterexample :
    main (some (.jarr [])) =
      ⟨500, "An error occurred. Check logs for details.", false⟩ ∧
    main (some (.jobj [])) =
      ⟨400, "Missing folder IDs in the request body.", false⟩ := ⟨rfl, rfl⟩

/-- C10 (amended): an unparseable body yields 500 and never dispatches
background processing; background processing is dispatched exactly on the
202 acknowledgment; for a body parsing to a JSON object, 400 is returned
exactly when either required folder-id field is absent or falsy (e.g.
empty); and 400 only ever arises from bodies that parse to objects —
non-object bodies yield 500, not 400. -/
theorem entry_point_status_amended :
    (main none).status = 500 ∧
    (main none).dispatchedBackground = false ∧
    (∀ b, (main b).dispatchedBackground = true ↔ (main b).status = 202) ∧
    (∀ fields, (main (some (.jobj fields))).status = 400 ↔
      (truthyOpt (jsonGet fields "attachments_folder_id") = false ∨
       truthyOpt (jsonGet fields "response_folder_id") = false)) ∧
    (∀ b, (main b).status = 400 → ∃ fields, b = some (.jobj fields)) := by
  refine ⟨rfl, rfl, ?_, ?_, ?_⟩
  · intro b
    rcases b with _ | v
    · simp [main]
    · cases v with
      | jobj fields =>
        by_cases h : (!truthyOpt (jsonGet fields "attachments_folder_id")
            || !truthyOpt (jsonGet fields "response_folder_id")) = true
        · simp [main, h]
        · simp [main, h]
      | jnull => simp [main]
      | jbool b => simp [main]
      | jnum n => simp [main]
      | jstr s => simp [main]
      | jarr es => simp [main]
  · intro fields
    by_cases h : (!truthyOpt (jsonGet fields "attachments_folder_id")
        || !truthyOpt (jsonGet fields "response_folder_id")) = true
    · simp only [main, h, if_true]
      simp only [Bool.or_eq_true, Bool.not_eq_true'] at h
      simpa using h
    · simp only [main, h, if_false]
      simp only [Bool.or_eq_true, Bool.not_eq_true'] at h
      push_neg at h
      constructor
      · intro hc
        exact absurd hc (by norm_num)
      · intro hc
        rcases hc with hc | hc
        · exact absurd hc (by simp [h.1])
        · exact absurd hc (by simp [h.2])
  · intro b hb
    rcases b with _ | v
    · simp [main] at hb
    · cases v with
      | jobj fields => exact ⟨fields, rfl⟩
      | jnull => simp [main] at hb
      | jbool b => simp [main] at hb
      | jnum n => simp [main] at hb
      | jstr s => simp [main] at hb
      | jarr es => simp [main] at hb

/-- C10 witness: the amended theorem's 400-only-from-objects clause applied
to a concrete object body lacking the response folder id. -/
theorem entry_point_status_amended_witness :
    ∃ fields, (some (JValue.jobj [("attachments_folder_id", JValue.jstr "x")])
        : Option JValue) = some (JValue.jobj fields) :=
  entry_point_status_amended.2.2.2.2
    (some (JValue.jobj [("attachments_folder_id", JValue.jstr "x")])) rfl

end Proposal
